import Mathlib

/-!
Verification of the cross-border payment orchestrator core
(fee engine, idempotency layer, API handlers, orchestrator worker)
against its natural-language specification.

Numeric values computed by the source in JavaScript numbers are modelled
as exact rationals; `Math.round(x)` is `⌊x + 1/2⌋`.
-/

set_option maxRecDepth 4000

namespace Pay

/-! ## Definitions: fee engine, string helpers, data model, idempotency
layer, API handlers, orchestrator worker, and concrete fixtures. -/


/-- JS `Math.round(value * 10^d) / 10^d`, the `round` helper of the fee engine.
`Math.round x = ⌊x + 1/2⌋`; `Rat.floor` is used so the definition evaluates. -/
def roundTo (v : ℚ) (d : ℕ) : ℚ :=
  (((v * (10 : ℚ) ^ d + 1/2).floor : ℤ) : ℚ) / (10 : ℚ) ^ d

/-- Rounding `round(value)` with the default of two decimals. -/
def round2 (v : ℚ) : ℚ := roundTo v 2

inductive PaymentMethod
  | ach
  | card
deriving DecidableEq, Repr

inductive Corridor
  | MXN
  | NGN
  | PHP
  | INR
  | BRL
deriving DecidableEq, Repr

inductive FeeHandling
  | inclusive
  | additive
deriving DecidableEq, Repr

/-- Table `FEE_CONFIG.onramp`. -/
def onrampRate : PaymentMethod → ℚ
  | .ach => 0
  | .card => 0.029

/-- Table `FEE_CONFIG.corridor`. -/
def corridorRate : Corridor → ℚ
  | .MXN => 0.010
  | .NGN => 0.020
  | .PHP => 0.015
  | .INR => 0.012
  | .BRL => 0.018

/-- Clamp `Math.max(lo, Math.min(x, hi))` used for the platform fee. -/
def clampQ (x lo hi : ℚ) : ℚ := max lo (min x hi)

/-- The unrounded onramp fee `amount * FEE_CONFIG.onramp[paymentMethod]`. -/
def onrampFeeRaw (amount : ℚ) (pm : PaymentMethod) : ℚ := amount * onrampRate pm

/-- The unrounded corridor fee `amount * FEE_CONFIG.corridor[corridor]`. -/
def corridorFeeRaw (amount : ℚ) (c : Corridor) : ℚ := amount * corridorRate c

/-- The clamped platform fee `max(0.99, min(2.99 + amount * 0.005, 50))`. -/
def platformFeeRaw (amount : ℚ) : ℚ := clampQ (2.99 + amount * 0.005) 0.99 50

/-- Constant `networkGas`. -/
def networkGasFee : ℚ := 0.05

/-- The unrounded total `onrampFee + corridorFee + platformFee + networkGas`. -/
def totalFeeRaw (amount : ℚ) (pm : PaymentMethod) (c : Corridor) : ℚ :=
  onrampFeeRaw amount pm + corridorFeeRaw amount c + platformFeeRaw amount + networkGasFee

structure Fees where
  onramp : ℚ
  corridor : ℚ
  platform : ℚ
  network_gas : ℚ
  total : ℚ
deriving DecidableEq, Repr

structure FeeBreakdown where
  input_amount : ℚ
  total_charged : ℚ
  fees : Fees
  usdc_sent : ℚ
deriving DecidableEq, Repr

/-- Function `calculateFees` of src/lib/fee-engine.ts; `none` models the thrown
range error for amounts outside `FEE_CONFIG.limits`. -/
def calculateFees (amount : ℚ) (pm : PaymentMethod) (c : Corridor)
    (fh : FeeHandling) : Option FeeBreakdown :=
  if amount < 10 ∨ 10000 < amount then none
  else
    let totalFees := totalFeeRaw amount pm c
    let usdcSent := if fh = .inclusive then amount - totalFees else amount
    let totalCharged := if fh = .inclusive then amount else amount + totalFees
    some
      { input_amount := round2 amount
        total_charged := round2 totalCharged
        fees :=
          { onramp := round2 (onrampFeeRaw amount pm)
            corridor := round2 (corridorFeeRaw amount c)
            platform := round2 (platformFeeRaw amount)
            network_gas := round2 networkGasFee
            total := round2 totalFees }
        usdc_sent := round2 usdcSent }

/-- Function `calculateDestinationAmount`. -/
def calculateDestinationAmount (usdcSent rate : ℚ) : ℚ := round2 (usdcSent * rate)

/-- JS `status.toLowerCase()` (ASCII statuses only). -/
def jsToLower (s : String) : String := s.map Char.toLower

/-- Replace the first occurrence of a character, as JS
`String.replace` does with a single-character string pattern. -/
def replaceFirstChar : List Char → Char → Char → List Char
  | [], _, _ => []
  | ch :: rest, pat, rep =>
    if ch = pat then rep :: rest else ch :: replaceFirstChar rest pat rep

/-- Computation `status.toLowerCase().replace(underscore, dot)` on the status:
the event type the worker derives from a status string. -/
def eventTypeOf (status : String) : String :=
  String.mk (replaceFirstChar (jsToLower status).toList '_' '.')

/-- One hex digit of the UUID-v4 regex (case-insensitive). -/
def isHexDigit (ch : Char) : Bool :=
  ch.isDigit || ('a' ≤ ch.toLower && ch.toLower ≤ 'f')

/-- Predicate `isUUIDv4` of src/lib (idempotency helpers): the regex
8-4-4-4-12 hex groups, version nibble 4, variant nibble in 89ab. -/
def isUUIDv4 (s : String) : Bool :=
  match s.splitOn "-" with
  | [a, b, c, d, e] =>
    a.length = 8 && b.length = 4 && c.length = 4 && d.length = 4 && e.length = 12 &&
    (a ++ b ++ c ++ d ++ e).toList.all isHexDigit &&
    c.toList.head? = some '4' &&
    (match d.toList.head? with
     | some ch => ['8', '9', 'a', 'b'].contains ch.toLower
     | none => false)
  | _ => false

/-- A JSON metadata value stored on an event. -/
inductive MetaVal
  | str (s : String)
  | num (q : ℚ)
  | time (t : ℤ)
deriving DecidableEq, Repr

abbrev Metadata := List (String × MetaVal)

/-- A Payment row. Instants are epoch milliseconds. -/
structure Payment where
  id : String
  userId : String
  status : String
  amount : ℚ
  sourceCurrency : String
  destCurrency : Corridor
  exchangeRate : ℚ
  quoteId : Option String
  quoteExpiresAt : Option ℤ
  onrampFee : ℚ
  corridorFee : ℚ
  platformFee : ℚ
  networkGas : ℚ
  totalFees : ℚ
  usdcSent : ℚ
  destAmount : ℚ
  feeHandling : String
  onrampTxId : Option String
  offrampTxId : Option String
  completedAt : Option ℤ
deriving DecidableEq, Repr

/-- An Event row. -/
structure Event where
  paymentId : String
  eventType : String
  status : String
  metadata : Metadata
deriving DecidableEq, Repr

/-- A response body; JSON serialisation is kept structural. -/
inductive Body
  | jsonError (error : String) (message : String)
  | jsonInitiate (payment_id : String) (status : String) (quote_expires_at : Option ℤ)
  | jsonConfirm (payment_id : String) (status : String) (processing : Bool)
  | raw (s : String)
deriving DecidableEq, Repr

structure HttpResponse where
  status : ℕ
  headers : List (String × String)
  body : Body
deriving DecidableEq, Repr

/-- The record `storeIdempotency` keeps in redis (src/lib idempotency). -/
structure CachedResponse where
  requestHash : String
  status : ℕ
  headers : List (String × String)
  body : Body
deriving DecidableEq, Repr

/-- One redis key `idempotency:<endpoint>:<user>:<key>` with its value. -/
structure IdemEntry where
  endpoint : String
  userId : String
  key : String
  value : CachedResponse
deriving DecidableEq, Repr

/-- The durable and queue state the handlers and workers touch:
Payment and Event tables, the two BullMQ queues, and the redis
idempotency keys. -/
structure SysState where
  payments : List Payment
  events : List Event
  paymentJobs : List String
  webhookJobs : List (String × String)
  idem : List IdemEntry
deriving DecidableEq, Repr

def lookupIdem (store : List IdemEntry) (e u k : String) : Option CachedResponse :=
  (store.find? (fun it => it.endpoint == e && it.userId == u && it.key == k)).map
    (fun it => it.value)

/-- Operation `redis.setex` on the idempotency key: set, overwriting any prior value. -/
def setIdem (store : List IdemEntry) (e u k : String) (v : CachedResponse) :
    List IdemEntry :=
  ⟨e, u, k, v⟩ :: store.filter (fun it => !(it.endpoint == e && it.userId == u && it.key == k))

/-- JS object spread override: set a header, replacing an existing one. -/
def setHeader (hs : List (String × String)) (k v : String) : List (String × String) :=
  hs.filter (fun p => p.1 ≠ k) ++ [(k, v)]

/-- Response `NextResponse.json(body, status)`. -/
def jsonResponse (st : ℕ) (b : Body) : HttpResponse :=
  ⟨st, [("Content-Type", "application/json")], b⟩

/-- Function `checkIdempotency` of src/lib/redis.ts lines 42-76: `none` means no cached
record (proceed with the handler); `some resp` is the early-returned response.
The SHA-256 digest is the abstract parameter `hash`. -/
def checkIdempotency (hash : String → String) (store : List IdemEntry)
    (endpoint userId key rawBody : String) : Option HttpResponse :=
  match lookupIdem store endpoint userId key with
  | none => none
  | some data =>
    if data.requestHash ≠ hash rawBody then
      some (jsonResponse 409 (.jsonError "Idempotency key conflict"
        "The same idempotency key was used with a different request body"))
    else
      some ⟨data.status,
            setHeader (setHeader data.headers "Content-Type" "application/json")
              "Idempotent-Replayed" "true",
            data.body⟩

/-- Function `storeIdempotency` of src/lib/redis.ts lines 81-103. -/
def storeIdempotency (hash : String → String) (store : List IdemEntry)
    (endpoint userId key rawBody : String) (resp : HttpResponse) : List IdemEntry :=
  setIdem store endpoint userId key
    ⟨hash rawBody, resp.status, resp.headers, resp.body⟩

def DEMO_USER_ID : String := "user_001"

/-- Mock balance oracle (src/mocks/config/user-balance.ts): always 10000. -/
def getUserBalance (userId : String) : ℚ := 10000

def corridorName : Corridor → String
  | .MXN => "MXN"
  | .NGN => "NGN"
  | .PHP => "PHP"
  | .INR => "INR"
  | .BRL => "BRL"

/-- Conversion `validated.fee_handling.toUpperCase()`. -/
def feeHandlingUpper : FeeHandling → String
  | .inclusive => "INCLUSIVE"
  | .additive => "ADDITIVE"

/-- The zod-validated initiate body. -/
structure InitiateBody where
  quote_id : Option String
  amount : ℚ
  destination_currency : Corridor
  payment_method : PaymentMethod
  fee_handling : FeeHandling
deriving DecidableEq, Repr

/-- The zod-validated confirm body. -/
structure ConfirmBody where
  payment_id : String
deriving DecidableEq, Repr

/-- An incoming request: the `Idempotency-Key` header, the raw body bytes
(the fingerprint input), and the JSON parse of the body (`none` covers a
malformed JSON body and a structurally invalid one, which zod rejects). -/
structure ApiRequest (β : Type) where
  idempotencyKey : Option String
  rawBody : String
  jsonBody : Option β
deriving DecidableEq, Repr

def findPayment (s : SysState) (pid : String) : Option Payment :=
  s.payments.find? (fun p => p.id == pid)

def invalidKeyResponse : HttpResponse :=
  jsonResponse 400 (.jsonError "Invalid idempotency key"
    "Valid Idempotency-Key header (UUID v4) is required")

def validationErrorResponse : HttpResponse :=
  jsonResponse 400 (.jsonError "Invalid request" "Validation failed")

/-- POST /api/v1/initiate. `hash` abstracts SHA-256, `rate` is the value
`getExchangeRate` resolves to, `now` is `Date.now()`, `newId` the id prisma
assigns to the created row. Interpolated detail strings of error messages are
elided; statuses and error kinds are kept. -/
def initiatePOST (hash : String → String) (rate : ℚ) (now : ℤ) (newId : String)
    (s : SysState) (req : ApiRequest InitiateBody) : HttpResponse × SysState :=
  match req.idempotencyKey with
  | none => (invalidKeyResponse, s)
  | some key =>
    if ¬ isUUIDv4 key then (invalidKeyResponse, s)
    else
      match checkIdempotency hash s.idem "initiate" DEMO_USER_ID key req.rawBody with
      | some cached => (cached, s)
      | none =>
        match req.jsonBody with
        | none => (validationErrorResponse, s)
        | some b =>
          if ¬ (10 ≤ b.amount ∧ b.amount ≤ 10000) then (validationErrorResponse, s)
          else
            let balance := getUserBalance DEMO_USER_ID
            match (if b.fee_handling = .inclusive then some b.amount
                   else (calculateFees b.amount b.payment_method b.destination_currency
                          b.fee_handling).map (fun f => b.amount + f.fees.total)) with
            | none => (jsonResponse 500 (.jsonError "Internal server error" "fee error"), s)
            | some required =>
              if balance < required then
                (jsonResponse 400 (.jsonError "Insufficient balance"
                  "Required amount exceeds available balance"), s)
              else
                match calculateFees b.amount b.payment_method b.destination_currency
                    b.fee_handling with
                | none => (jsonResponse 500 (.jsonError "Internal server error" "fee error"), s)
                | some fees =>
                  let destAmount := calculateDestinationAmount fees.usdc_sent rate
                  let quoteExpiresAt := now + 60000
                  let payment : Payment :=
                    { id := newId
                      userId := DEMO_USER_ID
                      status := "INITIATED"
                      amount := b.amount
                      sourceCurrency := "USD"
                      destCurrency := b.destination_currency
                      exchangeRate := rate
                      quoteId := b.quote_id
                      quoteExpiresAt := some quoteExpiresAt
                      onrampFee := fees.fees.onramp
                      corridorFee := fees.fees.corridor
                      platformFee := fees.fees.platform
                      networkGas := fees.fees.network_gas
                      totalFees := fees.fees.total
                      usdcSent := fees.usdc_sent
                      destAmount := destAmount
                      feeHandling := feeHandlingUpper b.fee_handling
                      onrampTxId := none
                      offrampTxId := none
                      completedAt := none }
                  let ev : Event :=
                    { paymentId := newId
                      eventType := "payment.initiated"
                      status := "INITIATED"
                      metadata :=
                        (match b.quote_id with
                         | some q => [("quote_id", MetaVal.str q)]
                         | none => []) ++
                        [("amount", MetaVal.num b.amount),
                         ("destination_currency",
                          MetaVal.str (corridorName b.destination_currency))] }
                  let resp := jsonResponse 200
                    (.jsonInitiate newId "INITIATED" (some quoteExpiresAt))
                  (resp,
                   { s with
                     payments := s.payments ++ [payment]
                     events := s.events ++ [ev]
                     idem := storeIdempotency hash s.idem "initiate" DEMO_USER_ID key
                       req.rawBody resp })

/-- POST /api/v1/confirm (src/app/api/v1/confirm/route.ts). -/
def confirmPOST (hash : String → String) (now : ℤ) (s : SysState)
    (req : ApiRequest ConfirmBody) : HttpResponse × SysState :=
  match req.idempotencyKey with
  | none => (invalidKeyResponse, s)
  | some key =>
    if ¬ isUUIDv4 key then (invalidKeyResponse, s)
    else
      match checkIdempotency hash s.idem "confirm" DEMO_USER_ID key req.rawBody with
      | some cached => (cached, s)
      | none =>
        match req.jsonBody with
        | none => (validationErrorResponse, s)
        | some b =>
          match findPayment s b.payment_id with
          | none => (jsonResponse 404 (.jsonError "Payment not found"
              "No payment found with that ID"), s)
          | some payment =>
            if payment.status ≠ "INITIATED" then
              (jsonResponse 400 (.jsonError "Invalid payment status"
                "Payment must be in INITIATED status"), s)
            else if (match payment.quoteExpiresAt with
                     | some t => decide (t < now)
                     | none => false) then
              (jsonResponse 400 (.jsonError "Quote expired"
                "The quote has expired. Please create a new payment."), s)
            else
              let balance := getUserBalance DEMO_USER_ID
              let required :=
                if payment.feeHandling = "INCLUSIVE" then payment.amount
                else payment.amount + payment.totalFees
              if balance < required then
                (jsonResponse 400 (.jsonError "Insufficient balance"
                  "Required amount exceeds available balance"), s)
              else
                let ev : Event :=
                  { paymentId := payment.id
                    eventType := "payment.confirmed"
                    status := "CONFIRMED"
                    metadata := [("confirmed_at", MetaVal.time now)] }
                let resp := jsonResponse 200 (.jsonConfirm payment.id "CONFIRMED" true)
                (resp,
                 { s with
                   payments := s.payments.map (fun p =>
                     if p.id == payment.id then { p with status := "CONFIRMED" } else p)
                   events := s.events ++ [ev]
                   paymentJobs := s.paymentJobs ++ [payment.id]
                   idem := storeIdempotency hash s.idem "confirm" DEMO_USER_ID key
                     req.rawBody resp })

/-- Update `prisma.payment.update`: `none` models the record-not-found throw. -/
def modifyPayment (s : SysState) (pid : String) (f : Payment → Payment) :
    Option SysState :=
  if s.payments.any (fun p => p.id == pid) then
    some { s with payments := s.payments.map (fun p => if p.id == pid then f p else p) }
  else none

/-- Function `updateStatus` of src/workers/payment-processor.ts lines 107-127:
persist the status, then append one event typed with the dotted
lower-cased status string. -/
def updateStatus (s : SysState) (paymentId status : String) (md : Metadata) :
    Option SysState :=
  (modifyPayment s paymentId (fun p => { p with status := status })).map (fun s1 =>
    { s1 with events := s1.events ++ [⟨paymentId, eventTypeOf status, status, md⟩] })

structure OnrampResult where
  txId : String
  usdcReceived : ℚ
deriving DecidableEq, Repr

structure OfframpResult where
  txId : String
  localAmount : ℚ
  currency : Corridor
deriving DecidableEq, Repr

inductive ProviderResult (α : Type)
  | ok (val : α)
  | err (msg : String)
deriving DecidableEq, Repr

/-- What BullMQ records for the job: a `.failed` outcome is the re-raised
exception (the queue counts a failed attempt). -/
inductive JobOutcome
  | completed
  | failed (msg : String)
deriving DecidableEq, Repr

/-- The payment-processing job handler (src/workers/payment-processor.ts
lines 22-99). `onramp amount method userId` and
`offramp usdc currency userId` abstract the mock providers; `now` is the
completion instant. The catch block's `updateStatus(paymentId, FAILED)`
is reflected in the `.err` branches; when the payment row is missing the
catch itself throws before writing, leaving the state unchanged. -/
def paymentWorkerRun (onramp : ℚ → String → String → ProviderResult OnrampResult)
    (offramp : ℚ → Corridor → String → ProviderResult OfframpResult)
    (now : ℤ) (s : SysState) (paymentId : String) : JobOutcome × SysState :=
  match findPayment s paymentId with
  | none => (.failed "Payment not found", s)
  | some payment =>
    match updateStatus s paymentId "ONRAMP_PENDING" [] with
    | none => (.failed "Payment not found", s)
    | some s1 =>
      match onramp payment.amount (if payment.onrampFee = 0 then "ach" else "card")
          payment.userId with
      | .err msg =>
        match updateStatus s1 paymentId "FAILED" [("error", .str msg)] with
        | none => (.failed msg, s1)
        | some s2 => (.failed msg, s2)
      | .ok onr =>
        match modifyPayment s1 paymentId (fun p => { p with onrampTxId := some onr.txId }) with
        | none => (.failed "Payment not found", s1)
        | some s2 =>
          match updateStatus s2 paymentId "ONRAMP_COMPLETED"
              [("txId", .str onr.txId), ("usdcReceived", .num onr.usdcReceived)] with
          | none => (.failed "Payment not found", s2)
          | some s3 =>
            match updateStatus s3 paymentId "OFFRAMP_PENDING" [] with
            | none => (.failed "Payment not found", s3)
            | some s4 =>
              match offramp payment.usdcSent payment.destCurrency payment.userId with
              | .err msg =>
                match updateStatus s4 paymentId "FAILED" [("error", .str msg)] with
                | none => (.failed msg, s4)
                | some s5 => (.failed msg, s5)
              | .ok off =>
                match modifyPayment s4 paymentId
                    (fun p => { p with offrampTxId := some off.txId }) with
                | none => (.failed "Payment not found", s4)
                | some s5 =>
                  match updateStatus s5 paymentId "OFFRAMP_COMPLETED"
                      [("txId", .str off.txId), ("localAmount", .num off.localAmount),
                       ("currency", .str (corridorName off.currency))] with
                  | none => (.failed "Payment not found", s5)
                  | some s6 =>
                    match updateStatus s6 paymentId "COMPLETED" [] with
                    | none => (.failed "Payment not found", s6)
                    | some s7 =>
                      match modifyPayment s7 paymentId
                          (fun p => { p with completedAt := some now }) with
                      | none => (.failed "Payment not found", s7)
                      | some s8 => (.completed, s8)

/-- A payment row as `initiate` followed by `confirm` would leave it
(amount 100, ach, MXN, inclusive). -/
def samplePayment : Payment :=
  { id := "pay_1"
    userId := "user_001"
    status := "CONFIRMED"
    amount := 100
    sourceCurrency := "USD"
    destCurrency := .MXN
    exchangeRate := 17.234
    quoteId := none
    quoteExpiresAt := some 60000
    onrampFee := 0
    corridorFee := 1
    platformFee := 3.49
    networkGas := 0.05
    totalFees := 4.54
    usdcSent := 95.46
    destAmount := 1645.16
    feeHandling := "INCLUSIVE"
    onrampTxId := none
    offrampTxId := none
    completedAt := none }

def sampleState : SysState :=
  { payments := [samplePayment], events := [], paymentJobs := [], webhookJobs := [], idem := [] }

def okOnrampStub : ℚ → String → String → ProviderResult OnrampResult :=
  fun amount _ _ => .ok ⟨"onramp_tx_1", amount⟩

def failOnrampStub : ℚ → String → String → ProviderResult OnrampResult :=
  fun _ _ _ => .err "Onramp failed: Card declined"

def okOfframpStub : ℚ → Corridor → String → ProviderResult OfframpResult :=
  fun usdc c _ => .ok ⟨"offramp_tx_1", usdc, c⟩

/-- A payment that was initiated but never confirmed. -/
def initiatedState : SysState :=
  { payments := [{ samplePayment with status := "INITIATED" }]
    events := []
    paymentJobs := []
    webhookJobs := []
    idem := [] }

/-- A syntactically valid UUID v4. -/
def sampleUUID : String := "123e4567-e89b-42d3-a456-426614174000"

/-- A state holding one stored idempotency record for the initiate endpoint. -/
def cachedState : SysState :=
  { payments := []
    events := []
    paymentJobs := []
    webhookJobs := []
    idem := [⟨"initiate", "user_001", sampleUUID, ⟨"HB", 200, [], .raw "ok"⟩⟩] }

/-- An INITIATED payment whose quote expired at t=1000. -/
def expiredState : SysState :=
  { payments := [{ samplePayment with status := "INITIATED", quoteExpiresAt := some 1000 }]
    events := []
    paymentJobs := []
    webhookJobs := []
    idem := [] }

/-! ## Theorems: shared lemmas, then one theorem per claim with its
counterexamples and witnesses. -/

theorem round2_eq_floor (v : ℚ) :
    round2 v = ((⌊v * 100 + 1/2⌋ : ℤ) : ℚ) / 100 := by
  rw [round2, roundTo, Rat.floor_def', ← Rat.floor_def]
  norm_num

theorem round2_gas : round2 (0.05 : ℚ) = 0.05 := by with_unfolding_all rfl

/-- Rounding a half-up after adding a whole-cent amount shifts by that amount. -/
theorem round2_int_cents_add (m : ℤ) (t : ℚ) :
    round2 ((m : ℚ) / 100 + t) = (m : ℚ) / 100 + round2 t := by
  rw [round2_eq_floor, round2_eq_floor]
  have e : ((m : ℚ) / 100 + t) * 100 + 1/2 = (m : ℚ) + (t * 100 + 1/2) := by ring
  rw [e, Int.floor_int_add]
  push_cast
  ring

/-- When `t` is not an exact half-cent, rounding `a - t` and `t` half-up
is exact: the two roundings cancel. -/
theorem round2_sub_add_round2 (m : ℤ) (t : ℚ)
    (h : ¬ ∃ n : ℤ, t * 100 = (n : ℚ) + 1/2) :
    round2 ((m : ℚ) / 100 - t) + round2 t = (m : ℚ) / 100 := by
  rw [round2_eq_floor, round2_eq_floor]
  have e : ((m : ℚ) / 100 - t) * 100 + 1/2 = (m : ℚ) + (1/2 - t * 100) := by ring
  rw [e, Int.floor_int_add]
  set k : ℤ := ⌊t * 100 + 1/2⌋ with hk
  have hb1 : (k : ℚ) ≤ t * 100 + 1/2 := Int.floor_le _
  have hb2 : t * 100 + 1/2 < (k : ℚ) + 1 := Int.lt_floor_add_one _
  have hne : t * 100 + 1/2 ≠ (k : ℚ) := by
    intro he
    exact h ⟨k - 1, by push_cast; linarith⟩
  have hlt : (k : ℚ) < t * 100 + 1/2 := lt_of_le_of_ne hb1 (Ne.symm hne)
  have key : ⌊1/2 - t * 100⌋ = -k := by
    rw [Int.floor_eq_iff]
    constructor
    · push_cast
      linarith
    · push_cast
      linarith
  rw [key]
  push_cast
  ring

/-- When `t` is an exact half-cent, rounding `a - t` and `t` half-up
overshoots by exactly one cent. -/
theorem round2_sub_add_round2_half (m n : ℤ) (t : ℚ)
    (h : t * 100 = (n : ℚ) + 1/2) :
    round2 ((m : ℚ) / 100 - t) + round2 t = (m : ℚ) / 100 + 1/100 := by
  rw [round2_eq_floor, round2_eq_floor]
  have e1 : ((m : ℚ) / 100 - t) * 100 + 1/2 = ((m - n : ℤ) : ℚ) := by
    push_cast
    linarith
  have e2 : t * 100 + 1/2 = ((n + 1 : ℤ) : ℚ) := by
    push_cast
    linarith
  rw [e1, e2, Int.floor_intCast, Int.floor_intCast]
  push_cast
  ring

theorem eventTypeOf_ONRAMP_PENDING : eventTypeOf "ONRAMP_PENDING" = "onramp.pending" := by
  with_unfolding_all rfl

theorem eventTypeOf_FAILED : eventTypeOf "FAILED" = "failed" := by
  with_unfolding_all rfl

theorem modifyPayment_webhookJobs_eq {s : SysState} {pid : String}
    {f : Payment → Payment} {s' : SysState} (h : modifyPayment s pid f = some s') :
    s'.webhookJobs = s.webhookJobs := by
  rw [modifyPayment] at h
  split at h
  · obtain rfl := (Option.some.inj h).symm
    rfl
  · simp at h

theorem updateStatus_webhookJobs_eq {s : SysState} {pid st : String}
    {md : Metadata} {s' : SysState} (h : updateStatus s pid st md = some s') :
    s'.webhookJobs = s.webhookJobs := by
  rw [updateStatus] at h
  cases hm : modifyPayment s pid (fun p => { p with status := st }) with
  | none => rw [hm] at h; simp at h
  | some s1 =>
    rw [hm, Option.map_some'] at h
    obtain rfl := (Option.some.inj h).symm
    show s1.webhookJobs = s.webhookJobs
    exact modifyPayment_webhookJobs_eq hm

theorem modifyPayment_of_found (s : SysState) (pid : String) (f : Payment → Payment)
    (p : Payment) (h : findPayment s pid = some p) :
    modifyPayment s pid f =
      some { s with payments :=
               s.payments.map (fun q => if q.id == pid then f q else q) } := by
  rw [findPayment] at h
  have hmem : p ∈ s.payments := List.mem_of_find?_eq_some h
  have hp := List.find?_some h
  have hany : (s.payments.any fun q => q.id == pid) = true :=
    List.any_eq_true.2 ⟨p, hmem, hp⟩
  rw [modifyPayment, if_pos hany]

theorem updateStatus_of_found (s : SysState) (pid st : String) (md : Metadata)
    (p : Payment) (h : findPayment s pid = some p) :
    updateStatus s pid st md =
      some { s with
             payments := s.payments.map
               (fun q => if q.id == pid then { q with status := st } else q)
             events := s.events ++ [⟨pid, eventTypeOf st, st, md⟩] } := by
  rw [updateStatus, modifyPayment_of_found s pid _ p h]
  rfl

/-- After an id-preserving conditional map, the first payment found for an id
is the updated first match. -/
theorem find?_map_ite (l : List Payment) (pid : String) (f : Payment → Payment)
    (hid : ∀ q, (f q).id = q.id) (p : Payment)
    (h : l.find? (fun q => q.id == pid) = some p) :
    (l.map (fun q => if q.id == pid then f q else q)).find? (fun q => q.id == pid) =
      some (f p) := by
  induction l with
  | nil => simp [List.find?] at h
  | cons x xs ih =>
    by_cases hx : (x.id == pid) = true
    · rw [List.find?_cons, hx] at h
      have h2 : some x = some p := h
      obtain rfl := Option.some.inj h2
      have hfx : ((f x).id == pid) = true := by rw [hid]; exact hx
      simp only [List.map_cons, hx, if_true]
      rw [List.find?_cons, hfx]
    · have hx' : (x.id == pid) = false := by simpa using hx
      rw [List.find?_cons, hx'] at h
      have h2 : List.find? (fun q => q.id == pid) xs = some p := h
      simp only [List.map_cons, hx', Bool.false_eq_true, if_false]
      rw [List.find?_cons, hx']
      exact ih h2

theorem findPayment_after_update (s : SysState) (pid : String) (f : Payment → Payment)
    (hid : ∀ q, (f q).id = q.id) (p : Payment) (h : findPayment s pid = some p)
    (ev : List Event) (pj : List String) (wj : List (String × String))
    (ie : List IdemEntry) :
    findPayment
      ⟨s.payments.map (fun q => if q.id == pid then f q else q), ev, pj, wj, ie⟩ pid =
      some (f p) := by
  rw [findPayment] at h ⊢
  exact find?_map_ite s.payments pid f hid p h

theorem take_len_append {α : Type} (l rest : List α) (a : α) :
    (l ++ a :: rest).take (l.length + 1) = l ++ [a] := by
  induction l with
  | nil => simp
  | cons x xs ih => simp [ih]

theorem leaf_shape {α : Type} {res : List α} (l tail : List α) (a : α)
    (h : res = (l ++ [a]) ++ tail) :
    res.take (l.length + 1) = l ++ [a] ∧ l.length < res.length := by
  subst h
  constructor
  · have e : (l ++ [a]) ++ tail = l ++ a :: tail := by simp
    rw [e, take_len_append]
  · simp

theorem leaf_shape' {α : Type} {res l : List α} {a : α}
    (h : ∃ tail, res = (l ++ [a]) ++ tail) :
    res.take (l.length + 1) = l ++ [a] ∧ l.length < res.length := by
  obtain ⟨tail, ht⟩ := h
  exact leaf_shape l tail a ht

theorem modifyPayment_events_eq {s : SysState} {pid : String}
    {f : Payment → Payment} {s' : SysState} (h : modifyPayment s pid f = some s') :
    s'.events = s.events := by
  rw [modifyPayment] at h
  split at h
  · obtain rfl := (Option.some.inj h).symm
    rfl
  · simp at h

theorem updateStatus_events_extend {s : SysState} {pid st : String}
    {md : Metadata} {s' : SysState} (h : updateStatus s pid st md = some s') :
    s'.events = s.events ++ [⟨pid, eventTypeOf st, st, md⟩] := by
  rw [updateStatus] at h
  cases hm : modifyPayment s pid (fun p => { p with status := st }) with
  | none => rw [hm] at h; simp at h
  | some s1 =>
    rw [hm, Option.map_some'] at h
    obtain rfl := (Option.some.inj h).symm
    show s1.events ++ _ = _
    rw [modifyPayment_events_eq hm]

theorem tail_extend_update {s s' : SysState} {pid st : String} {md : Metadata}
    {E : List Event} (h : updateStatus s pid st md = some s')
    (he : ∃ t, s.events = E ++ t) : ∃ t, s'.events = E ++ t := by
  obtain ⟨t, ht⟩ := he
  exact ⟨t ++ [⟨pid, eventTypeOf st, st, md⟩],
    by rw [updateStatus_events_extend h, ht, List.append_assoc]⟩

theorem tail_extend_modify {s s' : SysState} {pid : String} {f : Payment → Payment}
    {E : List Event} (h : modifyPayment s pid f = some s')
    (he : ∃ t, s.events = E ++ t) : ∃ t, s'.events = E ++ t := by
  obtain ⟨t, ht⟩ := he
  exact ⟨t, (modifyPayment_events_eq h).trans ht⟩

/-- C1: for every amount between 10 and 10000 with method in (ach, card) and a
supported corridor, `calculateFees` returns onramp = amount x (0 for ach, 0.029
for card), corridor = amount x the corridor table rate, platform =
clamp(2.99 + amount x 0.005, 0.99, 50), network_gas = 0.05, total = their sum,
usdc_sent = amount - total (inclusive) or amount (additive), every returned
field rounded to two decimals; and amount 500 with card, NGN, additive yields
onramp 14.50, corridor 10.00, platform 5.49, gas 0.05, total 30.04 and
usdc_sent 500.00. -/
theorem C1_fee_formulas :
    (∀ (a : ℚ) (pm : PaymentMethod) (c : Corridor) (fh : FeeHandling),
      10 ≤ a → a ≤ 10000 →
      calculateFees a pm c fh = some
        { input_amount := round2 a
          total_charged := round2 (match fh with
            | .inclusive => a
            | .additive => a + totalFeeRaw a pm c)
          fees :=
            { onramp := round2 (a * match pm with
                | .ach => (0 : ℚ)
                | .card => 0.029)
              corridor := round2 (a * match c with
                | .MXN => (0.010 : ℚ)
                | .NGN => 0.020
                | .PHP => 0.015
                | .INR => 0.012
                | .BRL => 0.018)
              platform := round2 (clampQ (2.99 + a * 0.005) 0.99 50)
              network_gas := 0.05
              total := round2 ((a * match pm with
                  | .ach => (0 : ℚ)
                  | .card => 0.029) +
                (a * match c with
                  | .MXN => (0.010 : ℚ)
                  | .NGN => 0.020
                  | .PHP => 0.015
                  | .INR => 0.012
                  | .BRL => 0.018) +
                clampQ (2.99 + a * 0.005) 0.99 50 + 0.05) }
          usdc_sent := round2 (match fh with
            | .inclusive => a - totalFeeRaw a pm c
            | .additive => a) }) ∧
    calculateFees 500 .card .NGN .additive =
      some ⟨500, 530.04, ⟨14.5, 10, 5.49, 0.05, 30.04⟩, 500⟩ := by
  constructor
  · intro a pm c fh h1 h2
    have hg : ¬ (a < 10 ∨ 10000 < a) := by
      push_neg
      exact ⟨h1, h2⟩
    cases pm <;> cases c <;> cases fh <;>
      simp [calculateFees, hg, totalFeeRaw, onrampFeeRaw, corridorFeeRaw,
        platformFeeRaw, networkGasFee, onrampRate, corridorRate, round2_gas]
  · with_unfolding_all rfl

/-- C1 witness: the general formula evaluated at amount 100, ach, MXN,
inclusive, together with the concrete scenario of the claim. -/
theorem C1_fee_formulas_witness :
    calculateFees 100 .ach .MXN .inclusive = some
      { input_amount := round2 100
        total_charged := round2 100
        fees :=
          { onramp := round2 (100 * 0)
            corridor := round2 (100 * 0.010)
            platform := round2 (clampQ (2.99 + 100 * 0.005) 0.99 50)
            network_gas := 0.05
            total := round2 (100 * 0 + 100 * 0.010 +
              clampQ (2.99 + 100 * 0.005) 0.99 50 + 0.05) }
        usdc_sent := round2 (100 - totalFeeRaw 100 .ach .MXN) } ∧
    calculateFees 500 .card .NGN .additive =
      some ⟨500, 530.04, ⟨14.5, 10, 5.49, 0.05, 30.04⟩, 500⟩ :=
  ⟨C1_fee_formulas.1 100 .ach .MXN .inclusive (by norm_num) (by norm_num),
   C1_fee_formulas.2⟩

/-- C5 counterexample: at amount 11, ach, MXN, inclusive the exact total
(3.205) is an exact half-cent; the rounded fields give
usdc_sent + total = 7.80 + 3.21 = 11.01, not the input amount 11. -/
theorem C5_counterexample :
    ((10 : ℚ) ≤ 11 ∧ (11 : ℚ) ≤ 10000) ∧
    (calculateFees 11 .ach .MXN .inclusive).map
      (fun fb => (fb.usdc_sent, fb.fees.total, fb.usdc_sent + fb.fees.total)) =
      some (7.80, 3.21, 11.01) ∧
    (11.01 : ℚ) ≠ 11 :=
  ⟨by norm_num, by with_unfolding_all rfl, by norm_num⟩

/-- C5 corrected: for whole-cent amounts, the additive relation
`round2(total_charged) - round2(total) = amount` always holds, and the
inclusive relation `round2(usdc_sent) + round2(total) = amount` holds
whenever the exact fee total is not an exact half-cent; when it is, the
sum exceeds the amount by exactly $0.01. -/
theorem C5_rounding_consistency (m : ℤ) (pm : PaymentMethod) (c : Corridor) :
    (∀ fb, calculateFees ((m : ℚ) / 100) pm c .additive = some fb →
       fb.total_charged - fb.fees.total = (m : ℚ) / 100) ∧
    ((¬ ∃ n : ℤ, totalFeeRaw ((m : ℚ) / 100) pm c * 100 = (n : ℚ) + 1/2) →
       ∀ fb, calculateFees ((m : ℚ) / 100) pm c .inclusive = some fb →
         fb.usdc_sent + fb.fees.total = (m : ℚ) / 100) ∧
    (∀ n : ℤ, totalFeeRaw ((m : ℚ) / 100) pm c * 100 = (n : ℚ) + 1/2 →
       ∀ fb, calculateFees ((m : ℚ) / 100) pm c .inclusive = some fb →
         fb.usdc_sent + fb.fees.total = (m : ℚ) / 100 + 0.01) := by
  refine ⟨?_, ?_, ?_⟩
  · intro fb hfb
    rw [calculateFees] at hfb
    split at hfb
    · exact absurd hfb (by simp)
    · obtain rfl := (Option.some.inj hfb).symm
      have hne : (FeeHandling.additive = FeeHandling.inclusive) = False := by simp
      simp only [hne, if_false]
      rw [round2_int_cents_add m (totalFeeRaw ((m : ℚ) / 100) pm c)]
      ring
  · intro h fb hfb
    rw [calculateFees] at hfb
    split at hfb
    · exact absurd hfb (by simp)
    · obtain rfl := (Option.some.inj hfb).symm
      simp only [eq_self_iff_true, if_true]
      exact round2_sub_add_round2 m _ h
  · intro n hn fb hfb
    rw [calculateFees] at hfb
    split at hfb
    · exact absurd hfb (by simp)
    · obtain rfl := (Option.some.inj hfb).symm
      simp only [eq_self_iff_true, if_true]
      rw [round2_sub_add_round2_half m n _ hn]
      norm_num

/-- C5 witness: the additive relation applied at amount 500, card, NGN. -/
theorem C5_rounding_consistency_witness :
    (⟨500, 530.04, ⟨14.5, 10, 5.49, 0.05, 30.04⟩, 500⟩ :
        FeeBreakdown).total_charged -
      (⟨500, 530.04, ⟨14.5, 10, 5.49, 0.05, 30.04⟩, 500⟩ :
        FeeBreakdown).fees.total = ((50000 : ℤ) : ℚ) / 100 :=
  (C5_rounding_consistency 50000 .card .NGN).1 _ (by with_unfolding_all rfl)

/-- C8 counterexample: at amount 10 the platform fee is 3.04 (the unclamped
2.99 + 0.05), not the claimed clamp to the $0.99 minimum. -/
theorem C8_counterexample :
    (calculateFees 10 .ach .MXN .inclusive).map (fun fb => fb.fees.platform) =
      some 3.04 ∧ (3.04 : ℚ) ≠ 0.99 :=
  ⟨by with_unfolding_all rfl, by norm_num⟩

/-- C8 corrected: for every in-range amount the unclamped platform fee
2.99 + amount x 0.005 already exceeds the $0.99 minimum, so at amount 10 the
platform fee is 3.04 (no clamping), while at amount 10000 the unclamped value
52.99 is clamped to the $50.00 maximum. -/
theorem C8_platform_clamp :
    (∀ a : ℚ, 10 ≤ a →
       0.99 < 2.99 + a * 0.005 ∧
       platformFeeRaw a = min (2.99 + a * 0.005) 50) ∧
    (∀ (pm : PaymentMethod) (c : Corridor) (fh : FeeHandling),
       (calculateFees 10 pm c fh).map (fun fb => fb.fees.platform) = some 3.04 ∧
       (calculateFees 10000 pm c fh).map (fun fb => fb.fees.platform) = some 50) ∧
    2.99 + (10000 : ℚ) * 0.005 = 52.99 := by
  refine ⟨?_, ?_, by norm_num⟩
  · intro a ha
    have hlt : (0.99 : ℚ) < 2.99 + a * 0.005 := by nlinarith
    refine ⟨hlt, ?_⟩
    rw [platformFeeRaw, clampQ, max_eq_right]
    exact le_min hlt.le (by norm_num)
  · intro pm c fh
    cases pm <;> cases c <;> cases fh <;>
      exact ⟨by with_unfolding_all rfl, by with_unfolding_all rfl⟩

/-- C8 witness: the general clamp fact applied at amount 10, and the platform
values at both boundary amounts for ach, MXN, inclusive. -/
theorem C8_platform_clamp_witness :
    ((0.99 : ℚ) < 2.99 + 10 * 0.005 ∧
     platformFeeRaw 10 = min (2.99 + 10 * 0.005) 50) ∧
    (calculateFees 10 .ach .MXN .inclusive).map (fun fb => fb.fees.platform) =
      some 3.04 ∧
    (calculateFees 10000 .ach .MXN .inclusive).map (fun fb => fb.fees.platform) =
      some 50 :=
  ⟨C8_platform_clamp.1 10 (by norm_num),
   (C8_platform_clamp.2.1 .ach .MXN .inclusive).1,
   (C8_platform_clamp.2.1 .ach .MXN .inclusive).2⟩

/-- C2 counterexample: the ONRAMP_PENDING transition on a concrete stored
payment persists the status and appends exactly one `onramp.pending` event,
but enqueues zero (not one) webhook-delivery jobs. -/
theorem C2_counterexample :
    (updateStatus sampleState "pay_1" "ONRAMP_PENDING" []).map
        (fun s => (s.payments.map Payment.status,
                   s.events.map Event.eventType,
                   s.webhookJobs.length)) =
      some (["ONRAMP_PENDING"], ["onramp.pending"], 0) ∧ (0 : ℕ) ≠ 1 :=
  ⟨by with_unfolding_all rfl, by norm_num⟩

/-- C2 corrected: every transition performed through the worker's
`updateStatus` persists the new status and appends exactly one Event whose
eventType is the dotted lower-case form of the new status, but it enqueues NO
webhook-delivery job; a whole worker run leaves the webhook queue unchanged. -/
theorem C2_transition_effects :
    (∀ (s : SysState) (pid st : String) (md : Metadata) (s' : SysState),
       updateStatus s pid st md = some s' →
       (∀ p ∈ s'.payments, p.id = pid → p.status = st) ∧
       s'.events = s.events ++ [⟨pid, eventTypeOf st, st, md⟩] ∧
       s'.webhookJobs = s.webhookJobs ∧
       s'.paymentJobs = s.paymentJobs ∧
       s'.idem = s.idem) ∧
    (∀ onramp offramp now s pid,
       (paymentWorkerRun onramp offramp now s pid).2.webhookJobs = s.webhookJobs) := by
  constructor
  · intro s pid st md s' h
    rw [updateStatus, modifyPayment] at h
    split at h
    · obtain rfl := (Option.some.inj h).symm
      refine ⟨?_, rfl, rfl, rfl, rfl⟩
      intro p hp hid
      obtain ⟨q, hq, rfl⟩ := List.mem_map.1 hp
      by_cases hqid : (q.id == pid) = true
      · simp [hqid]
      · simp only [hqid, if_neg, Bool.false_eq_true, not_false_iff, ite_false] at hid ⊢
        exact absurd (beq_iff_eq.2 hid) (by simp_all)
    · simp at h
  · intro onramp offramp now s pid
    unfold paymentWorkerRun
    cases h0 : findPayment s pid with
    | none => rfl
    | some payment =>
    dsimp only
    cases h1 : updateStatus s pid "ONRAMP_PENDING" [] with
    | none => rfl
    | some s1 =>
    dsimp only
    have e1 := updateStatus_webhookJobs_eq h1
    cases h2 : onramp payment.amount (if payment.onrampFee = 0 then "ach" else "card")
        payment.userId with
    | err msg =>
      dsimp only
      cases h3 : updateStatus s1 pid "FAILED" [("error", .str msg)] with
      | none => exact e1
      | some s2 => exact (updateStatus_webhookJobs_eq h3).trans e1
    | ok onr =>
    dsimp only
    cases h3 : modifyPayment s1 pid (fun p => { p with onrampTxId := some onr.txId }) with
    | none => exact e1
    | some s2 =>
    dsimp only
    have e2 := (modifyPayment_webhookJobs_eq h3).trans e1
    cases h4 : updateStatus s2 pid "ONRAMP_COMPLETED"
        [("txId", .str onr.txId), ("usdcReceived", .num onr.usdcReceived)] with
    | none => exact e2
    | some s3 =>
    dsimp only
    have e3 := (updateStatus_webhookJobs_eq h4).trans e2
    cases h5 : updateStatus s3 pid "OFFRAMP_PENDING" [] with
    | none => exact e3
    | some s4 =>
    dsimp only
    have e4 := (updateStatus_webhookJobs_eq h5).trans e3
    cases h6 : offramp payment.usdcSent payment.destCurrency payment.userId with
    | err msg =>
      dsimp only
      cases h7 : updateStatus s4 pid "FAILED" [("error", .str msg)] with
      | none => exact e4
      | some s5 => exact (updateStatus_webhookJobs_eq h7).trans e4
    | ok off =>
    dsimp only
    cases h7 : modifyPayment s4 pid (fun p => { p with offrampTxId := some off.txId }) with
    | none => exact e4
    | some s5 =>
    dsimp only
    have e5 := (modifyPayment_webhookJobs_eq h7).trans e4
    cases h8 : updateStatus s5 pid "OFFRAMP_COMPLETED"
        [("txId", .str off.txId), ("localAmount", .num off.localAmount),
         ("currency", .str (corridorName off.currency))] with
    | none => exact e5
    | some s6 =>
    dsimp only
    have e6 := (updateStatus_webhookJobs_eq h8).trans e5
    cases h9 : updateStatus s6 pid "COMPLETED" [] with
    | none => exact e6
    | some s7 =>
    dsimp only
    have e7 := (updateStatus_webhookJobs_eq h9).trans e6
    cases h10 : modifyPayment s7 pid (fun p => { p with completedAt := some now }) with
    | none => exact e7
    | some s8 => exact (modifyPayment_webhookJobs_eq h10).trans e7

/-- C2 witness: the amended fact applied to a full worker run on a concrete
state. -/
theorem C2_transition_effects_witness :
    (paymentWorkerRun okOnrampStub okOfframpStub 99 sampleState
      "pay_1").2.webhookJobs = sampleState.webhookJobs :=
  C2_transition_effects.2 okOnrampStub okOfframpStub 99 sampleState "pay_1"

/-- C3 counterexample: with the onramp provider raising on a stored confirmed
payment, the event log gains exactly `onramp.pending` and `failed` - neither
`onramp.failed` nor `payment.failed` is recorded. -/
theorem C3_counterexample :
    ((paymentWorkerRun failOnrampStub okOfframpStub 99 sampleState "pay_1").2.events.map
        Event.eventType = ["onramp.pending", "failed"]) ∧
    ¬ ("onramp.failed" ∈
        (paymentWorkerRun failOnrampStub okOfframpStub 99 sampleState "pay_1").2.events.map
          Event.eventType) ∧
    ¬ ("payment.failed" ∈
        (paymentWorkerRun failOnrampStub okOfframpStub 99 sampleState "pay_1").2.events.map
          Event.eventType) ∧
    (paymentWorkerRun failOnrampStub okOfframpStub 99 sampleState "pay_1").1 =
      .failed "Onramp failed: Card declined" :=
  ⟨by with_unfolding_all rfl, by with_unfolding_all decide,
   by with_unfolding_all decide, by with_unfolding_all rfl⟩

/-- C3 corrected: when the onramp provider raises, the worker transitions the
payment to ONRAMP_PENDING and then directly to the terminal FAILED (no
ONRAMP_FAILED intermediate): the event log gains exactly the event types
`onramp.pending` and `failed` (not `payment.failed`), no offramp events are
recorded, the stored payment ends in status FAILED, and the error is re-raised
so the queue records a failed attempt. -/
theorem C3_onramp_failure
    (onramp : ℚ → String → String → ProviderResult OnrampResult)
    (offramp : ℚ → Corridor → String → ProviderResult OfframpResult)
    (now : ℤ) (s : SysState) (pid : String) (p : Payment) (msg : String)
    (hfind : findPayment s pid = some p)
    (herr : onramp p.amount (if p.onrampFee = 0 then "ach" else "card") p.userId =
      .err msg) :
    (paymentWorkerRun onramp offramp now s pid).1 = .failed msg ∧
    (paymentWorkerRun onramp offramp now s pid).2.events =
      s.events ++ [⟨pid, "onramp.pending", "ONRAMP_PENDING", []⟩,
                   ⟨pid, "failed", "FAILED", [("error", .str msg)]⟩] ∧
    (∀ q ∈ (paymentWorkerRun onramp offramp now s pid).2.payments,
       q.id = pid → q.status = "FAILED") ∧
    (paymentWorkerRun onramp offramp now s pid).2.webhookJobs = s.webhookJobs := by
  have hfind2 := findPayment_after_update s pid
    (fun q => { q with status := "ONRAMP_PENDING" }) (fun q => rfl) p hfind
    (s.events ++ [⟨pid, eventTypeOf "ONRAMP_PENDING", "ONRAMP_PENDING", []⟩])
    s.paymentJobs s.webhookJobs s.idem
  unfold paymentWorkerRun
  rw [hfind]
  dsimp only
  rw [updateStatus_of_found s pid "ONRAMP_PENDING" [] p hfind]
  dsimp only
  rw [herr]
  dsimp only
  rw [updateStatus_of_found _ pid "FAILED" [("error", .str msg)] _ hfind2]
  dsimp only
  refine ⟨rfl, ?_, ?_, rfl⟩
  · rw [eventTypeOf_ONRAMP_PENDING, eventTypeOf_FAILED]
    simp
  · intro q hq hqid
    simp only [List.map_map] at hq
    obtain ⟨r, hr, rfl⟩ := List.mem_map.1 hq
    by_cases hrid : (r.id == pid) = true
    · simp [Function.comp, hrid]
    · exfalso
      have : (r.id == pid) = true := by
        apply beq_iff_eq.2
        simpa [Function.comp, hrid] using hqid
      exact hrid this

/-- C3 witness: the onramp-failure fact on a concrete stored payment. -/
theorem C3_onramp_failure_witness :
    (paymentWorkerRun failOnrampStub okOfframpStub 99 sampleState "pay_1").1 =
      .failed "Onramp failed: Card declined" ∧
    (paymentWorkerRun failOnrampStub okOfframpStub 99 sampleState "pay_1").2.events =
      sampleState.events ++
        [⟨"pay_1", "onramp.pending", "ONRAMP_PENDING", []⟩,
         ⟨"pay_1", "failed", "FAILED",
          [("error", .str "Onramp failed: Card declined")]⟩] ∧
    (paymentWorkerRun failOnrampStub okOfframpStub 99 sampleState
      "pay_1").2.webhookJobs = sampleState.webhookJobs := by
  have h := C3_onramp_failure failOnrampStub okOfframpStub 99 sampleState "pay_1"
    samplePayment "Onramp failed: Card declined" (by with_unfolding_all rfl) rfl
  exact ⟨h.1, h.2.1, h.2.2.2⟩

/-- C7 counterexample: on a payment whose status is INITIATED (not CONFIRMED)
the worker does not skip: it invokes both providers, writes all five
transitions and their events, records the onramp transaction id, and completes
the job. -/
theorem C7_counterexample :
    ({ samplePayment with status := "INITIATED" } : Payment).status ≠ "CONFIRMED" ∧
    (paymentWorkerRun okOnrampStub okOfframpStub 99 initiatedState "pay_1").1 =
      .completed ∧
    (paymentWorkerRun okOnrampStub okOfframpStub 99 initiatedState
        "pay_1").2.events.map Event.eventType =
      ["onramp.pending", "onramp.completed", "offramp.pending", "offramp.completed",
       "completed"] ∧
    (paymentWorkerRun okOnrampStub okOfframpStub 99 initiatedState
        "pay_1").2.payments.map Payment.status = ["COMPLETED"] ∧
    (paymentWorkerRun okOnrampStub okOfframpStub 99 initiatedState
        "pay_1").2.payments.map Payment.onrampTxId = [some "onramp_tx_1"] :=
  ⟨by with_unfolding_all decide, by with_unfolding_all rfl, by with_unfolding_all rfl,
   by with_unfolding_all rfl, by with_unfolding_all rfl⟩

/-- C7 corrected: the worker has no CONFIRMED guard. For any payment found in
the store - in particular one whose status is not CONFIRMED - it proceeds to
process: the event log strictly grows and the first appended event is the
`onramp.pending` transition. Only a missing payment row aborts the job. -/
theorem C7_no_skip (onramp : ℚ → String → String → ProviderResult OnrampResult)
    (offramp : ℚ → Corridor → String → ProviderResult OfframpResult)
    (now : ℤ) (s : SysState) (pid : String) (p : Payment)
    (hfind : findPayment s pid = some p) (hst : p.status ≠ "CONFIRMED") :
    (paymentWorkerRun onramp offramp now s pid).2.events.take (s.events.length + 1) =
      s.events ++ [⟨pid, "onramp.pending", "ONRAMP_PENDING", []⟩] ∧
    s.events.length < (paymentWorkerRun onramp offramp now s pid).2.events.length := by
  unfold paymentWorkerRun
  rw [hfind]
  dsimp only
  cases h1 : updateStatus s pid "ONRAMP_PENDING" [] with
  | none =>
    rw [updateStatus_of_found s pid "ONRAMP_PENDING" [] p hfind] at h1
    simp at h1
  | some s1 =>
  dsimp only
  have e1 : ∃ t, s1.events =
      (s.events ++ [⟨pid, "onramp.pending", "ONRAMP_PENDING", []⟩]) ++ t :=
    ⟨[], by rw [updateStatus_events_extend h1, eventTypeOf_ONRAMP_PENDING]; simp⟩
  cases h2 : onramp p.amount (if p.onrampFee = 0 then "ach" else "card") p.userId with
  | err msg =>
    dsimp only
    cases h3 : updateStatus s1 pid "FAILED" [("error", .str msg)] with
    | none => exact leaf_shape' e1
    | some s2 => exact leaf_shape' (tail_extend_update h3 e1)
  | ok onr =>
  dsimp only
  cases h3 : modifyPayment s1 pid (fun q => { q with onrampTxId := some onr.txId }) with
  | none => exact leaf_shape' e1
  | some s2 =>
  dsimp only
  have e2 := tail_extend_modify h3 e1
  cases h4 : updateStatus s2 pid "ONRAMP_COMPLETED"
      [("txId", .str onr.txId), ("usdcReceived", .num onr.usdcReceived)] with
  | none => exact leaf_shape' e2
  | some s3 =>
  dsimp only
  have e3 := tail_extend_update h4 e2
  cases h5 : updateStatus s3 pid "OFFRAMP_PENDING" [] with
  | none => exact leaf_shape' e3
  | some s4 =>
  dsimp only
  have e4 := tail_extend_update h5 e3
  cases h6 : offramp p.usdcSent p.destCurrency p.userId with
  | err msg =>
    dsimp only
    cases h7 : updateStatus s4 pid "FAILED" [("error", .str msg)] with
    | none => exact leaf_shape' e4
    | some s5 => exact leaf_shape' (tail_extend_update h7 e4)
  | ok off =>
  dsimp only
  cases h7 : modifyPayment s4 pid (fun q => { q with offrampTxId := some off.txId }) with
  | none => exact leaf_shape' e4
  | some s5 =>
  dsimp only
  have e5 := tail_extend_modify h7 e4
  cases h8 : updateStatus s5 pid "OFFRAMP_COMPLETED"
      [("txId", .str off.txId), ("localAmount", .num off.localAmount),
       ("currency", .str (corridorName off.currency))] with
  | none => exact leaf_shape' e5
  | some s6 =>
  dsimp only
  have e6 := tail_extend_update h8 e5
  cases h9 : updateStatus s6 pid "COMPLETED" [] with
  | none => exact leaf_shape' e6
  | some s7 =>
  dsimp only
  have e7 := tail_extend_update h9 e6
  cases h10 : modifyPayment s7 pid (fun q => { q with completedAt := some now }) with
  | none => exact leaf_shape' e7
  | some s8 =>
  dsimp only
  exact leaf_shape' (tail_extend_modify h10 e7)

/-- C7 witness: the no-skip fact applied to the concrete INITIATED payment. -/
theorem C7_no_skip_witness :
    (paymentWorkerRun okOnrampStub okOfframpStub 99 initiatedState
        "pay_1").2.events.take (initiatedState.events.length + 1) =
      initiatedState.events ++ [⟨"pay_1", "onramp.pending", "ONRAMP_PENDING", []⟩] ∧
    initiatedState.events.length <
      (paymentWorkerRun okOnrampStub okOfframpStub 99 initiatedState
        "pay_1").2.events.length :=
  C7_no_skip okOnrampStub okOfframpStub 99 initiatedState "pay_1"
    { samplePayment with status := "INITIATED" } (by with_unfolding_all rfl)
    (by with_unfolding_all decide)

/-- C4: on either endpoint, when the Idempotency-Key already has a stored
record for (endpoint, user_001, key): if the stored fingerprint equals the
hash of the current raw body, the stored response is replayed verbatim with
an added `Idempotent-Replayed: true` header; otherwise a 409 conflict is
returned; in both cases the state (payments, events, queues, idempotency
store) is completely unchanged. -/
theorem C4_replay_or_conflict (hash : String → String) (rate : ℚ) (now : ℤ)
    (newId : String) (s : SysState) (k : String) (data : CachedResponse) :
    (∀ req : ApiRequest InitiateBody,
      req.idempotencyKey = some k → isUUIDv4 k = true →
      lookupIdem s.idem "initiate" DEMO_USER_ID k = some data →
      initiatePOST hash rate now newId s req =
        (if data.requestHash = hash req.rawBody then
          ⟨data.status,
           setHeader (setHeader data.headers "Content-Type" "application/json")
             "Idempotent-Replayed" "true",
           data.body⟩
         else jsonResponse 409 (.jsonError "Idempotency key conflict"
           "The same idempotency key was used with a different request body"), s)) ∧
    (∀ req : ApiRequest ConfirmBody,
      req.idempotencyKey = some k → isUUIDv4 k = true →
      lookupIdem s.idem "confirm" DEMO_USER_ID k = some data →
      confirmPOST hash now s req =
        (if data.requestHash = hash req.rawBody then
          ⟨data.status,
           setHeader (setHeader data.headers "Content-Type" "application/json")
             "Idempotent-Replayed" "true",
           data.body⟩
         else jsonResponse 409 (.jsonError "Idempotency key conflict"
           "The same idempotency key was used with a different request body"), s)) := by
  constructor
  · intro req h1 h2 h3
    rw [initiatePOST, h1]
    dsimp only
    rw [h2]
    simp only [not_true, if_false, Bool.true_eq_false, not_false_iff, ite_false, ite_true]
    rw [checkIdempotency, h3]
    dsimp only
    by_cases hc : data.requestHash = hash req.rawBody
    · rw [if_neg (by simpa using hc), if_pos hc]
    · rw [if_pos (by simpa using hc), if_neg hc]
  · intro req h1 h2 h3
    rw [confirmPOST, h1]
    dsimp only
    rw [h2]
    simp only [not_true, if_false, Bool.true_eq_false, not_false_iff, ite_false, ite_true]
    rw [checkIdempotency, h3]
    dsimp only
    by_cases hc : data.requestHash = hash req.rawBody
    · rw [if_neg (by simpa using hc), if_pos hc]
    · rw [if_pos (by simpa using hc), if_neg hc]

/-- C4 witness: a concrete replay - matching fingerprint returns the stored
body with the `Idempotent-Replayed: true` header and leaves the state
untouched. -/
theorem C4_replay_or_conflict_witness :
    initiatePOST (fun x => "HB") 17.234 0 "pay_9" cachedState
      ⟨some sampleUUID, "BODY", none⟩ =
      (⟨200, setHeader (setHeader [] "Content-Type" "application/json")
         "Idempotent-Replayed" "true", .raw "ok"⟩, cachedState) := by
  have h := (C4_replay_or_conflict (fun x => "HB") 17.234 0 "pay_9" cachedState
      sampleUUID ⟨"HB", 200, [], .raw "ok"⟩).1 ⟨some sampleUUID, "BODY", none⟩ rfl
    (by with_unfolding_all rfl) (by with_unfolding_all rfl)
  simpa using h

/-- C6: a confirm request for an INITIATED payment whose quote expiry instant
is in the past gets a 400 Quote-expired response, and the whole state - the
payment row, events, both queues and the idempotency store - is unchanged. -/
theorem C6_confirm_quote_expired (hash : String → String) (now : ℤ) (s : SysState)
    (req : ApiRequest ConfirmBody) (k pid : String) (p : Payment) (t : ℤ)
    (h1 : req.idempotencyKey = some k) (h2 : isUUIDv4 k = true)
    (h3 : lookupIdem s.idem "confirm" DEMO_USER_ID k = none)
    (h4 : req.jsonBody = some ⟨pid⟩)
    (h5 : findPayment s pid = some p)
    (h6 : p.status = "INITIATED")
    (h7 : p.quoteExpiresAt = some t)
    (h8 : t < now) :
    confirmPOST hash now s req =
      (jsonResponse 400 (.jsonError "Quote expired"
        "The quote has expired. Please create a new payment."), s) := by
  rw [confirmPOST, h1]
  dsimp only
  rw [h2]
  simp only [not_true, Bool.true_eq_false, not_false_iff, ite_false, ite_true]
  rw [checkIdempotency, h3]
  dsimp only
  rw [h4]
  dsimp only
  rw [h5]
  dsimp only
  rw [if_neg (by rw [h6]; simp), h7]
  dsimp only
  rw [if_pos (by simpa using h8)]

/-- C6 witness: the quote-expiry fact at a concrete expired payment. -/
theorem C6_confirm_quote_expired_witness :
    confirmPOST (fun x => x) 2000 expiredState
      ⟨some sampleUUID, "B", some ⟨"pay_1"⟩⟩ =
      (jsonResponse 400 (.jsonError "Quote expired"
        "The quote has expired. Please create a new payment."), expiredState) :=
  C6_confirm_quote_expired (fun x => x) 2000 expiredState
    ⟨some sampleUUID, "B", some ⟨"pay_1"⟩⟩ sampleUUID "pay_1"
    { samplePayment with status := "INITIATED", quoteExpiresAt := some 1000 } 1000
    rfl (by with_unfolding_all rfl) (by with_unfolding_all rfl) rfl
    (by with_unfolding_all rfl) rfl rfl (by norm_num)

/-- C10: neither handler ever stores an error response in the idempotency
cache - whenever the returned status is an error (>= 400), the idempotency
store after the call is exactly the store before it, so a retry with the same
key re-executes the handler. -/
theorem C10_errors_not_cached (hash : String → String) (rate : ℚ) (now : ℤ)
    (newId : String) :
    (∀ (s : SysState) (req : ApiRequest InitiateBody),
       400 ≤ ((initiatePOST hash rate now newId s req).1).status →
       ((initiatePOST hash rate now newId s req).2).idem = s.idem) ∧
    (∀ (s : SysState) (req : ApiRequest ConfirmBody),
       400 ≤ ((confirmPOST hash now s req).1).status →
       ((confirmPOST hash now s req).2).idem = s.idem) := by
  constructor
  · intro s req
    unfold initiatePOST
    dsimp only
    repeat' split
    all_goals intro h
    all_goals first
      | rfl
      | (split <;> rfl)
      | exact absurd h (by norm_num [jsonResponse])
  · intro s req
    unfold confirmPOST
    dsimp only
    repeat' split
    all_goals intro h
    all_goals first
      | rfl
      | (split <;> rfl)
      | exact absurd h (by norm_num [jsonResponse])

/-- C10 witness: a request without an Idempotency-Key gets a 400 and leaves
the (empty) idempotency store unchanged. -/
theorem C10_errors_not_cached_witness :
    ((initiatePOST (fun x => x) 17.234 0 "pay_9" sampleState
      ⟨none, "B", none⟩).2).idem = sampleState.idem :=
  (C10_errors_not_cached (fun x => x) 17.234 0 "pay_9").1 sampleState
    ⟨none, "B", none⟩ (by with_unfolding_all decide)

/-- C9: (a) every payment row the initiate handler adds carries userId
`user_001`; (b) every idempotency entry either handler stores is keyed under
user `user_001`; (c) the handlers' responses depend on the idempotency store
only through its entries for user `user_001` - replacing the store by any
store that agrees on that user leaves both responses unchanged, whoever the
caller is. -/
theorem C9_demo_user_only (hash : String → String) (rate : ℚ) (now : ℤ)
    (newId : String) (s : SysState) :
    (∀ (req : ApiRequest InitiateBody) (p : Payment),
       p ∈ (initiatePOST hash rate now newId s req).2.payments →
       p ∈ s.payments ∨ p.userId = "user_001") ∧
    (∀ (req : ApiRequest InitiateBody) (it : IdemEntry),
       it ∈ (initiatePOST hash rate now newId s req).2.idem →
       it ∈ s.idem ∨ it.userId = "user_001") ∧
    (∀ (req : ApiRequest ConfirmBody) (it : IdemEntry),
       it ∈ (confirmPOST hash now s req).2.idem →
       it ∈ s.idem ∨ it.userId = "user_001") ∧
    (∀ I2 : List IdemEntry,
       (∀ ep key, lookupIdem s.idem ep "user_001" key = lookupIdem I2 ep "user_001" key) →
       (∀ req : ApiRequest InitiateBody,
          (initiatePOST hash rate now newId s req).1 =
            (initiatePOST hash rate now newId { s with idem := I2 } req).1) ∧
       (∀ req : ApiRequest ConfirmBody,
          (confirmPOST hash now s req).1 =
            (confirmPOST hash now { s with idem := I2 } req).1)) := by
  refine ⟨?_, ?_, ?_, ?_⟩
  · intro req p
    unfold initiatePOST
    dsimp only
    repeat' split
    all_goals intro hp
    all_goals first
      | exact Or.inl hp
      | (rcases List.mem_append.1 hp with hm | hm
         · exact Or.inl hm
         · rw [List.mem_singleton] at hm
           subst hm
           exact Or.inr rfl)
  · intro req it
    unfold initiatePOST
    dsimp only
    repeat' split
    all_goals intro hp
    all_goals first
      | exact Or.inl hp
      | (simp only [storeIdempotency, setIdem] at hp
         rcases List.mem_cons.1 hp with hm | hm
         · subst hm
           exact Or.inr rfl
         · exact Or.inl (List.mem_of_mem_filter hm))
  · intro req it
    unfold confirmPOST
    dsimp only
    repeat' split
    all_goals intro hp
    all_goals first
      | exact Or.inl hp
      | (simp only [storeIdempotency, setIdem] at hp
         rcases List.mem_cons.1 hp with hm | hm
         · subst hm
           exact Or.inr rfl
         · exact Or.inl (List.mem_of_mem_filter hm))
  · intro I2 hI
    constructor
    · intro req
      have hc : checkIdempotency hash s.idem "initiate" DEMO_USER_ID
          (req.idempotencyKey.getD "") req.rawBody =
        checkIdempotency hash I2 "initiate" DEMO_USER_ID
          (req.idempotencyKey.getD "") req.rawBody := by
        rw [checkIdempotency, checkIdempotency, DEMO_USER_ID,
          hI "initiate" (req.idempotencyKey.getD "")]
      cases hk : req.idempotencyKey with
      | none => rw [initiatePOST, initiatePOST, hk]
      | some key =>
        rw [hk] at hc
        simp only [Option.getD] at hc
        rw [initiatePOST, initiatePOST, hk]
        dsimp only
        rw [hc]
        repeat' split
        all_goals rfl
    · intro req
      have hc : checkIdempotency hash s.idem "confirm" DEMO_USER_ID
          (req.idempotencyKey.getD "") req.rawBody =
        checkIdempotency hash I2 "confirm" DEMO_USER_ID
          (req.idempotencyKey.getD "") req.rawBody := by
        rw [checkIdempotency, checkIdempotency, DEMO_USER_ID,
          hI "confirm" (req.idempotencyKey.getD "")]
      cases hk : req.idempotencyKey with
      | none => rw [confirmPOST, confirmPOST, hk]
      | some key =>
        rw [hk] at hc
        simp only [Option.getD] at hc
        rw [confirmPOST, confirmPOST, hk]
        dsimp only
        rw [hc]
        have hf : ∀ pid, findPayment { s with idem := I2 } pid = findPayment s pid :=
          fun _ => rfl
        simp only [hf]
        repeat' split
        all_goals rfl

/-- C9 witness: the store-projection fact applied at a concrete store, and the
created-payment fact applied to a concrete stored payment. -/
theorem C9_demo_user_only_witness :
    ((initiatePOST (fun x => x) 17.234 0 "pay_9" cachedState
        ⟨some sampleUUID, "BODY", none⟩).1 =
      (initiatePOST (fun x => x) 17.234 0 "pay_9"
        { cachedState with idem := cachedState.idem }
        ⟨some sampleUUID, "BODY", none⟩).1) ∧
    (samplePayment ∈ sampleState.payments ∨ samplePayment.userId = "user_001") :=
  ⟨((C9_demo_user_only (fun x => x) 17.234 0 "pay_9" cachedState).2.2.2
      cachedState.idem (fun _ _ => rfl)).1 ⟨some sampleUUID, "BODY", none⟩,
   (C9_demo_user_only (fun x => x) 17.234 0 "pay_9" sampleState).1
     ⟨none, "B", none⟩ samplePayment (List.mem_singleton.2 rfl)⟩

end Pay
